import Mathlib

/-!
# Verification of the LLM cross-check service core

A shallow embedding, in Lean 4, of the request-execution pipeline of the
`llm_crosscheck` package: the error taxonomy and retry loop of
`llms/base.py`, the request validation and rate-limit gate, the
Anthropic/OpenAI response and message converters, the health-check
aggregation of `services/llm_manager.py`, and the confidence/assessment
extraction heuristics of `services/crosscheck_service.py`.

Conventions of the embedding:
* Python `float` time and delay values are modelled by `ℚ`.
* `asyncio.sleep` is modelled by recording the requested delay (for the
  retry loop) or by advancing an idealised clock by exactly the requested
  amount (for the rate-limit gate).
* Exceptions are modelled by `Except`; an adapter whose `_make_request`
  is called repeatedly is modelled as a function from the 0-based
  invocation index to the outcome of that invocation.
* Logging, UUID generation and wall-clock stamping are elided; an
  opaque parameter stands for a fresh UUID where the source generates one.
-/

set_option autoImplicit false

namespace LLMCrosscheck

/-! ## Data model (`schemas/llm.py`) -/

/-- `LLMRole`: message roles in LLM conversations. -/
inductive LLMRole where
  | system
  | user
  | assistant
  | function
  deriving DecidableEq, Repr

/-- The string value of an `LLMRole` (the `str`-enum value in the source). -/
def LLMRole.value : LLMRole → String
  | .system => "system"
  | .user => "user"
  | .assistant => "assistant"
  | .function => "function"

/-- `LLMMessage`: an individual message in an LLM conversation.  The
structured `function_call` payload (`Dict[str, Any]`) is abstracted to an
opaque string. -/
structure LLMMessage where
  role : LLMRole
  content : String
  name : Option String := none
  functionCall : Option String := none
  deriving DecidableEq, Repr

/-- `LLMUsage`: token usage information from an LLM response. -/
structure LLMUsage where
  promptTokens : ℕ
  completionTokens : ℕ
  totalTokens : ℕ
  deriving DecidableEq, Repr

/-- `LLMChoice`: an individual choice in an LLM response. -/
structure LLMChoice where
  index : ℕ
  message : LLMMessage
  finishReason : Option String := none
  deriving DecidableEq, Repr

/-- `LLMProvider`: supported LLM providers (the subset the core uses). -/
inductive LLMProvider where
  | openai
  | anthropic
  | other (name : String)
  deriving DecidableEq, Repr

/-- `LLMRequest`: the standardised request schema.  The UUID `request_id`
is abstracted to a natural number; unused metadata fields are kept as
options. -/
structure LLMRequest where
  messages : List LLMMessage
  model : String
  maxTokens : Option ℕ := some 1000
  temperature : Option ℚ := some (7/10)
  topP : Option ℚ := some 1
  stream : Bool := false
  requestId : ℕ := 0
  deriving DecidableEq, Repr

/-- `LLMResponse`: the standardised response schema.  `created` is an
abstract timestamp. -/
structure LLMResponse where
  id : String
  object : String := "chat.completion"
  created : ℤ := 0
  model : String
  provider : LLMProvider
  choices : List LLMChoice
  usage : Option LLMUsage := none
  requestId : ℕ
  responseTimeMs : Option ℚ := none
  deriving DecidableEq, Repr

/-- `LLMProviderConfig`: provider configuration.  Field bounds from the
pydantic schema (`max_requests_per_minute ≥ 1`, `max_retries ∈ [0,10]`,
`retry_delay_seconds ∈ [0.1,60]`) are carried as hypotheses where a
theorem needs them, not baked into the structure. -/
structure LLMProviderConfig where
  provider : LLMProvider
  apiKey : String
  maxRequestsPerMinute : ℕ := 60
  maxRetries : ℕ := 3
  retryDelaySeconds : ℚ := 1
  timeoutSeconds : ℚ := 30
  defaultModel : String
  deriving DecidableEq, Repr

/-! ## Error taxonomy (`llms/base.py`, lines 19–49)

`LLMError` is the base exception; `LLMConnectionError`,
`LLMRateLimitError` (which carries `retry_after`), `LLMValidationError`
and `LLMAuthenticationError` subclass it.  An error value is modelled as
a kind tag plus the message; `generic` stands for a plain `LLMError`
instance (the catch-all provider error). -/

/-- The dynamic class of a raised `LLMError`. -/
inductive LLMErrorKind where
  | connection
  | rateLimit (retryAfter : Option ℚ)
  | validation
  | authentication
  | generic
  deriving DecidableEq, Repr

/-- A raised `LLMError` value: kind tag, message, optional provider/model
tags. -/
structure LLMErr where
  kind : LLMErrorKind
  message : String
  provider : Option String := none
  model : Option String := none
  deriving DecidableEq, Repr

/-- Whether a raised error is an `LLMValidationError`. -/
def LLMErr.isValidation (e : LLMErr) : Bool :=
  e.kind = LLMErrorKind.validation

deriving instance DecidableEq for Except

/-! ## Retry loop (`BaseLLM._make_request_with_retry`, lines 303–346)

The source iterates `attempt` over `0 .. max_retries`; the body either
returns the adapter result, or catches the raised error.  Crucially, the
second handler is `except (LLMConnectionError, LLMError)`: since every
error kind in the taxonomy subclasses `LLMError`, this clause catches
validation and authentication errors too, so every `LLMError` kind is
retried while attempts remain.  On a caught error with
`attempt < max_retries` the loop sleeps and continues, otherwise it
re-raises the caught error unchanged. -/

/-- Python `x or y` on an optional float: `None` and `0` are falsy. -/
def pyOr (v : Option ℚ) (dflt : ℚ) : ℚ :=
  match v with
  | none => dflt
  | some r => if r = 0 then dflt else r

/-- The sleep duration chosen by the retry loop after catching error `e`
on 0-based attempt `attempt`: `e.retry_after or retry_delay * 2**attempt`
for a rate-limit error, `retry_delay * 2**attempt` otherwise. -/
def waitFor (e : LLMErr) (retryDelay : ℚ) (attempt : ℕ) : ℚ :=
  match e.kind with
  | .rateLimit ra => pyOr ra (retryDelay * 2 ^ attempt)
  | _ => retryDelay * 2 ^ attempt

/-- Observable outcome of `_make_request_with_retry`: the returned
response or the re-raised error, the number of `_make_request`
invocations, and the list of sleep durations in order. -/
structure RetryResult where
  result : Except LLMErr LLMResponse
  invocations : ℕ
  waits : List ℚ
  deriving DecidableEq, Repr

/-- The retry loop from attempt `attempt` with `remaining` retries left
(`remaining = max_retries - attempt`).  `adapter n` is the outcome of the
n-th (0-based) `_make_request` invocation. -/
def retryAux (retryDelay : ℚ) (adapter : ℕ → Except LLMErr LLMResponse) :
    ℕ → ℕ → RetryResult
  | attempt, remaining =>
    match adapter attempt with
    | .ok r => ⟨.ok r, 1, []⟩
    | .error e =>
      match remaining with
      | 0 => ⟨.error e, 1, []⟩
      | remaining' + 1 =>
        let w := waitFor e retryDelay attempt
        let rest := retryAux retryDelay adapter (attempt + 1) remaining'
        ⟨rest.result, rest.invocations + 1, w :: rest.waits⟩

/-- `BaseLLM._make_request_with_retry`: run the retry loop from attempt 0
with the configured budget. -/
def makeRequestWithRetry (cfg : LLMProviderConfig)
    (adapter : ℕ → Except LLMErr LLMResponse) : RetryResult :=
  retryAux cfg.retryDelaySeconds adapter 0 cfg.maxRetries

/-! ## Request validation and `generate` (`llms/base.py`, lines 136–198
and 348–364) -/

/-- `BaseLLM._validate_request`: raises `LLMValidationError` when the
message list is empty, or when `max_tokens` is truthy and exceeds 32000
(an unknown model is only logged, never rejected).  Returns the raised
error, if any. -/
def validateRequest (req : LLMRequest) : Option LLMErr :=
  if req.messages = [] then
    some ⟨.validation, "Request must contain at least one message", none, none⟩
  else
    match req.maxTokens with
    | some t =>
      if t ≠ 0 ∧ t > 32000 then
        some ⟨.validation, "max_tokens cannot exceed 32000", none, none⟩
      else
        none
    | none => none

/-- Observable outcome of `BaseLLM.generate`: result, adapter invocation
count, retry sleep durations. -/
structure GenOutcome where
  result : Except LLMErr LLMResponse
  invocations : ℕ
  waits : List ℚ
  deriving DecidableEq, Repr

/-- `BaseLLM.generate`, after client initialisation and the rate-limit
gate (neither invokes `_make_request`): validate the request — a
validation failure is an `LLMError`, re-raised unchanged by the handler —
then run `_make_request_with_retry`.  Response-time stamping and counter
updates are elided. -/
def generate (cfg : LLMProviderConfig)
    (adapter : ℕ → Except LLMErr LLMResponse) (req : LLMRequest) :
    GenOutcome :=
  match validateRequest req with
  | some e => ⟨.error e, 0, []⟩
  | none =>
    let r := makeRequestWithRetry cfg adapter
    ⟨r.result, r.invocations, r.waits⟩

/-! ## Rate-limit gate (`BaseLLM._check_rate_limits`, lines 366–383)

The source reads the wall clock, sleeps if the minimum inter-request
interval `60.0 / max_requests_per_minute` has not elapsed since
`_last_request_time`, then stores the post-sleep clock reading as the new
`_last_request_time`.  In the idealised clock, sleeping for `w` seconds
at time `now` ends at `now + w`, so the stored timestamp — the dispatch
time of this request — is `now + w`. -/

/-- `BaseLLM._check_rate_limits` on the idealised clock: given the stored
`lastRequestTime` and the current clock reading `now`, return the sleep
duration and the new stored timestamp (the dispatch time). -/
def checkRateLimits (maxRequestsPerMinute : ℕ) (lastRequestTime now : ℚ) :
    ℚ × ℚ :=
  if lastRequestTime > 0 then
    let timeSinceLast := now - lastRequestTime
    let minInterval := 60 / (maxRequestsPerMinute : ℚ)
    if timeSinceLast < minInterval then
      let waitTime := minInterval - timeSinceLast
      (waitTime, now + waitTime)
    else
      (0, now)
  else
    (0, now)

/-! ## Anthropic message conversion
(`AnthropicLLM._convert_messages_to_anthropic`, lines 236–269)

System messages are folded into a single preamble string (`system_message
+= "\n\n" + content` when the accumulator is truthy, i.e. non-empty, else
`system_message = content`); user/assistant messages are appended to the
output list as `{role, content}` pairs; function messages are skipped. -/

/-- One converted Anthropic message: role string and content. -/
structure AnthropicMessage where
  role : String
  content : String
  deriving DecidableEq, Repr

/-- The loop body state of `_convert_messages_to_anthropic`: accumulated
system preamble and converted messages so far. -/
def convertMessagesAux (msgs : List LLMMessage)
    (sys : String) (acc : List AnthropicMessage) :
    String × List AnthropicMessage :=
  match msgs with
  | [] => (sys, acc)
  | m :: rest =>
    match m.role with
    | .system =>
      convertMessagesAux rest
        (if sys ≠ "" then sys ++ "\n\n" ++ m.content else m.content) acc
    | .user => convertMessagesAux rest sys (acc ++ [⟨m.role.value, m.content⟩])
    | .assistant =>
      convertMessagesAux rest sys (acc ++ [⟨m.role.value, m.content⟩])
    | .function => convertMessagesAux rest sys acc

/-- `AnthropicLLM._convert_messages_to_anthropic`. -/
def convertMessagesToAnthropic (msgs : List LLMMessage) :
    String × List AnthropicMessage :=
  convertMessagesAux msgs "" []

/-- The merge of a list of system contents as the source performs it,
starting from accumulator `acc`. -/
def mergeSys (acc : String) : List String → String
  | [] => acc
  | c :: cs => mergeSys (if acc ≠ "" then acc ++ "\n\n" ++ c else c) cs

/-! ## Anthropic response conversion
(`AnthropicLLM._convert_anthropic_response`, lines 271–323) -/

/-- One Anthropic content block: either a block carrying a `text`
attribute, or some other block whose `str()` rendering is kept. -/
inductive AnthropicContentBlock where
  | textBlock (text : String)
  | otherBlock (repr : String)
  deriving DecidableEq, Repr

/-- Anthropic usage object; `input_tokens` / `output_tokens` may be
absent (`getattr` with default 0). -/
structure AnthropicUsage where
  inputTokens : Option ℕ := none
  outputTokens : Option ℕ := none
  deriving DecidableEq, Repr

/-- An Anthropic API response as the converter reads it: every field is
accessed via `getattr`/truthiness checks, so each may be absent. -/
structure AnthropicResponse where
  content : List AnthropicContentBlock
  stopReason : Option String := none
  usage : Option AnthropicUsage := none
  id : Option String := none
  model : Option String := none
  deriving DecidableEq, Repr

/-- `AnthropicLLM._convert_anthropic_response`.  `freshId` stands for the
`str(uuid4())` fallback used when the vendor response has no `id`. -/
def convertAnthropicResponse (response : AnthropicResponse)
    (request : LLMRequest) (freshId : String) : LLMResponse :=
  let content :=
    match response.content with
    | [] => ""
    | b :: _ =>
      match b with
      | .textBlock t => t
      | .otherBlock s => s
  let message : LLMMessage := ⟨.assistant, content, none, none⟩
  let choice : LLMChoice := ⟨0, message, response.stopReason⟩
  let usage : Option LLMUsage :=
    match response.usage with
    | none => none
    | some u =>
      some ⟨u.inputTokens.getD 0, u.outputTokens.getD 0,
        u.inputTokens.getD 0 + u.outputTokens.getD 0⟩
  { id := response.id.getD freshId
    object := "chat.completion"
    created := 0
    model := response.model.getD request.model
    provider := .anthropic
    choices := [choice]
    usage := usage
    requestId := request.requestId
    responseTimeMs := none }

/-! ## OpenAI response conversion
(`OpenAILLM._convert_openai_response`, lines 269–314) -/

/-- An OpenAI vendor message as the converter reads it. -/
structure OpenAIVendorMessage where
  role : String
  content : Option String := none
  functionCall : Option String := none
  deriving DecidableEq, Repr

/-- An OpenAI vendor choice. -/
structure OpenAIVendorChoice where
  index : ℕ
  message : OpenAIVendorMessage
  finishReason : Option String := none
  deriving DecidableEq, Repr

/-- OpenAI vendor usage: the converter reads `prompt_tokens`,
`completion_tokens` and `total_tokens` as plain attributes (no
`getattr` default). -/
structure OpenAIVendorUsage where
  promptTokens : ℕ
  completionTokens : ℕ
  totalTokens : ℕ
  deriving DecidableEq, Repr

/-- An OpenAI vendor response as the converter reads it. -/
structure OpenAIVendorResponse where
  id : String
  object : String
  created : ℤ
  model : String
  choices : List OpenAIVendorChoice
  usage : Option OpenAIVendorUsage := none
  deriving DecidableEq, Repr

/-- `LLMRole(value)`: the str-enum constructor, raising `ValueError` on
an unknown value. -/
def roleOfString (s : String) : Option LLMRole :=
  if s = "system" then some .system
  else if s = "user" then some .user
  else if s = "assistant" then some .assistant
  else if s = "function" then some .function
  else none

/-- Convert one OpenAI vendor choice; `none` models the `ValueError`
raised by `LLMRole(choice.message.role)` on an unknown role. -/
def convertOpenAIChoice (choice : OpenAIVendorChoice) : Option LLMChoice :=
  match roleOfString choice.message.role with
  | none => none
  | some role =>
    some ⟨choice.index,
      ⟨role, choice.message.content.getD "", none, choice.message.functionCall⟩,
      choice.finishReason⟩

/-- The `for choice in response.choices` loop of
`_convert_openai_response`: convert each vendor choice in order; a
`ValueError` from the role constructor aborts the whole conversion. -/
def convertChoices : List OpenAIVendorChoice → Option (List LLMChoice)
  | [] => some []
  | c :: cs =>
    match convertOpenAIChoice c with
    | none => none
    | some l =>
      match convertChoices cs with
      | none => none
      | some ls => some (l :: ls)

/-- `OpenAILLM._convert_openai_response`: choices are converted one by
one from the vendor list (an empty vendor list yields an empty converted
list); `usage` is copied field-by-field when the vendor usage object is
truthy. -/
def convertOpenAIResponse (response : OpenAIVendorResponse)
    (request : LLMRequest) : Option LLMResponse :=
  match convertChoices response.choices with
  | none => none
  | some choices =>
    let usage : Option LLMUsage :=
      match response.usage with
      | none => none
      | some u => some ⟨u.promptTokens, u.completionTokens, u.totalTokens⟩
    some
      { id := response.id
        object := response.object
        created := response.created
        model := response.model
        provider := .openai
        choices := choices
        usage := usage
        requestId := request.requestId
        responseTimeMs := none }

/-! ## Health checks (`BaseLLM.health_check`, lines 258–296, and
`LLMManager.health_check`, lines 280–306) -/

/-- The per-provider health record returned by `BaseLLM.health_check`
(config and metrics sub-dicts abstracted to the fields the claims use). -/
structure HealthReport where
  provider : String
  status : String
  models : Option (List String) := none
  error : Option String := none
  deriving DecidableEq, Repr

/-- `BaseLLM.health_check`: `_ensure_initialised` (modelled as an
`Except` outcome) is run inside a `try`; on success a healthy record is
built, and any exception is caught and reported as unhealthy with the
error message — never propagated. -/
def baseHealthCheck (providerName : String) (models : List String)
    (init : Except String Unit) : HealthReport :=
  match init with
  | .ok _ => ⟨providerName, "healthy", some models, none⟩
  | .error e => ⟨providerName, "unhealthy", none, some e⟩

/-- `LLMManager.health_check`: for every registered provider, the
runtime's `health_check()` is awaited inside a `try`; an exception
becomes an `{"status": "unhealthy", "error": str(e)}` entry for that
provider, and the loop continues.  `providers` pairs each registered
provider name with the outcome of awaiting its check. -/
def managerHealthCheck
    (providers : List (String × Except String HealthReport)) :
    List (String × HealthReport) :=
  providers.map fun p =>
    match p.2 with
    | .ok h => (p.1, h)
    | .error e => (p.1, ⟨p.1, "unhealthy", none, some e⟩)

/-! ## Confidence and assessment extraction
(`CrossCheckService._extract_confidence_score`, lines 142–165, and
`_extract_overall_assessment`, lines 167–181)

The score is extracted with `re.search` over the lower-cased text using,
in order, the patterns `confidence.*?(\d+(?:\.\d+)?)`,
`score.*?(\d+(?:\.\d+)?)` and `(\d+(?:\.\d+)?)\s*(?:/\s*10|out\s+of\s+10)`.
The embedding implements the exact leftmost-match semantics of these
three patterns over ASCII text: `.` does not match a newline, so for the
first two patterns the digits must follow an occurrence of the keyword
with no intervening newline; in the third pattern every quantifier is
effectively possessive because no alternative continuation can start
with the character class just consumed. -/

/-- Python whitespace class `\s` (ASCII part). -/
def pySpace (c : Char) : Bool :=
  c = ' ' ∨ c = '\t' ∨ c = '\n' ∨ c = '\r' ∨ c = '\x0b' ∨ c = '\x0c'

/-- ASCII decimal digit. -/
def pyDigit (c : Char) : Bool :=
  '0' ≤ c ∧ c ≤ '9'

/-- The numeric group `\d+(?:\.\d+)?` as matched text: integer digits and
(possibly empty) fraction digits. -/
structure NumGroup where
  intDigits : List Char
  fracDigits : List Char
  deriving DecidableEq, Repr

/-- Decimal digit run to a natural number. -/
def digitsToNat (l : List Char) : ℕ :=
  l.foldl (fun n c => 10 * n + (c.toNat - 48)) 0

/-- `float(group)` for a group of shape `\d+(?:\.\d+)?`, as an exact
rational. -/
def NumGroup.toRat (g : NumGroup) : ℚ :=
  (digitsToNat g.intDigits : ℚ) +
    (digitsToNat g.fracDigits : ℚ) / 10 ^ g.fracDigits.length

/-- Read the maximal-munch group `\d+(?:\.\d+)?` starting at a digit:
greedy digits, then a fraction if and only if a dot followed by a digit
comes next (greedy fraction digits). -/
def takeNumGroup (s : List Char) : NumGroup :=
  let intDigits := s.takeWhile pyDigit
  let rest := s.dropWhile pyDigit
  match rest with
  | '.' :: r =>
    let fracDigits := r.takeWhile pyDigit
    if fracDigits = [] then ⟨intDigits, []⟩ else ⟨intDigits, fracDigits⟩
  | _ => ⟨intDigits, []⟩

/-- The lazy `.*?(\d+(?:\.\d+)?)` after a keyword: scan forward for the
first digit, failing at a newline (`.` does not match `\n`) or at the end
of the text. -/
def scanLineForNumber : List Char → Option NumGroup
  | [] => none
  | c :: cs =>
    if pyDigit c then some (takeNumGroup (c :: cs))
    else if c = '\n' then none
    else scanLineForNumber cs

/-- `re.search(key + ".*?(\d+(?:\.\d+)?)", s)`: try each start position
left to right; a start matches when the keyword is a prefix there and a
digit follows it on the same line. -/
def searchKeyNumber (key : List Char) : List Char → Option NumGroup
  | [] => none
  | c :: cs =>
    if key.isPrefixOf (c :: cs) then
      match scanLineForNumber (List.drop key.length (c :: cs)) with
      | some g => some g
      | none => searchKeyNumber key cs
    else
      searchKeyNumber key cs

/-- Match `(\d+(?:\.\d+)?)\s*(?:/\s*10|out\s+of\s+10)` anchored at the
start of `s`; maximal munch at every step is faithful because after
shortening any quantified part the next required character class cannot
match (digits cannot start `/` or `out`, spaces cannot either). -/
def matchOutOfTenAt (s : List Char) : Option NumGroup :=
  match s with
  | [] => none
  | c :: _ =>
    if pyDigit c then
      let g := takeNumGroup s
      let afterInt := s.dropWhile pyDigit
      let afterNum :=
        match afterInt with
        | '.' :: r =>
          if r.takeWhile pyDigit = [] then afterInt else r.dropWhile pyDigit
        | _ => afterInt
      let afterWs := afterNum.dropWhile pySpace
      match afterWs with
      | '/' :: r =>
        if [ '1', '0' ].isPrefixOf (r.dropWhile pySpace) then some g else none
      | 'o' :: 'u' :: 't' :: r =>
        match r with
        | c2 :: _ =>
          if pySpace c2 then
            match r.dropWhile pySpace with
            | 'o' :: 'f' :: r2 =>
              match r2 with
              | c3 :: _ =>
                if pySpace c3 then
                  if [ '1', '0' ].isPrefixOf (r2.dropWhile pySpace) then
                    some g
                  else none
                else none
              | [] => none
            | _ => none
          else none
        | [] => none
      | _ => none
    else none

/-- `re.search` for the third pattern: leftmost start position wins. -/
def searchOutOfTen : List Char → Option NumGroup
  | [] => none
  | c :: cs =>
    match matchOutOfTenAt (c :: cs) with
    | some g => some g
    | none => searchOutOfTen cs

/-- `str.lower()` (ASCII). -/
def pyToLower (s : String) : List Char :=
  s.data.map Char.toLower

/-- Normalise a matched value as the source does: values above 1 are
treated as an out-of-10 scale, and the result is clamped to [0, 1]. -/
def normaliseScore (score : ℚ) : ℚ :=
  let score := if score > 1 then score / 10 else score
  min (max score 0) 1

/-- `CrossCheckService._extract_confidence_score`: try the three
patterns in order on the lower-cased text; the first match is parsed
with `float`, normalised and clamped; no match yields `None`.  (`float`
never raises on a group of shape `\d+(?:\.\d+)?`, so the
`except ValueError: continue` path is dead.) -/
def extractConfidenceScore (validationContent : String) : Option ℚ :=
  let s := pyToLower validationContent
  let m :=
    match searchKeyNumber "confidence".data s with
    | some g => some g
    | none =>
      match searchKeyNumber "score".data s with
      | some g => some g
      | none => searchOutOfTen s
  match m with
  | some g => some (normaliseScore g.toRat)
  | none => none

/-- Substring containment (`needle in hay` on Python strings). -/
def hasSub (needle : List Char) : List Char → Bool
  | [] => needle.isEmpty
  | c :: cs => needle.isPrefixOf (c :: cs) || hasSub needle cs

/-- `CrossCheckService._extract_overall_assessment`: keyword presence in
the lower-cased text, in priority order excellent, good, fair, poor,
defaulting to "Unknown". -/
def extractOverallAssessment (validationContent : String) : String :=
  let contentLower := pyToLower validationContent
  if hasSub "excellent".data contentLower then "Excellent"
  else if hasSub "good".data contentLower then "Good"
  else if hasSub "fair".data contentLower then "Fair"
  else if hasSub "poor".data contentLower then "Poor"
  else "Unknown"

/-! ## Spec-side descriptions used to compare against the code

These definitions follow the wording of the specification (not the
source) and are only used on the right-hand side of refinement
statements about the converters. -/

/-- The contents of the system-role messages, in order (spec: "all
system messages ... in the order they appear"). -/
def systemContents : List LLMMessage → List String
  | [] => []
  | m :: rest =>
    match m.role with
    | .system => m.content :: systemContents rest
    | _ => systemContents rest

/-- The user/assistant messages, in order, as role/content pairs (spec:
"user and assistant messages are kept with their content and relative
order preserved"). -/
def keptMessages : List LLMMessage → List AnthropicMessage
  | [] => []
  | m :: rest =>
    match m.role with
    | .user => ⟨m.role.value, m.content⟩ :: keptMessages rest
    | .assistant => ⟨m.role.value, m.content⟩ :: keptMessages rest
    | _ => keptMessages rest

/-- Concatenation with a blank-line separator (spec: "concatenating
multiple system messages with a blank-line separator"). -/
def blankLineJoin : List String → String
  | [] => ""
  | [c] => c
  | c :: c2 :: cs => c ++ "\n\n" ++ blankLineJoin (c2 :: cs)

/-- A sample success response used in concrete executions. -/
def sampleResponse : LLMResponse :=
  ⟨"resp", "chat.completion", 0, "m", .openai, [], none, 0, none⟩

/-- A sample valid request used in concrete executions. -/
def sampleRequest : LLMRequest :=
  ⟨[⟨.user, "hi", none, none⟩], "gpt-4", some 1000, some (7/10), some 1,
    false, 0⟩

/-! ## Helper lemmas -/

/-- Unfolding: a successful invocation ends the loop at once. -/
theorem retryAux_eq_ok (d : ℚ) (adapter : ℕ → Except LLMErr LLMResponse)
    (a rem : ℕ) (r : LLMResponse) (h : adapter a = .ok r) :
    retryAux d adapter a rem = ⟨.ok r, 1, []⟩ := by
  unfold retryAux
  rw [h]

/-- Unfolding: a failed invocation with no retries left re-raises. -/
theorem retryAux_eq_error_zero (d : ℚ)
    (adapter : ℕ → Except LLMErr LLMResponse) (a : ℕ) (e : LLMErr)
    (h : adapter a = .error e) :
    retryAux d adapter a 0 = ⟨.error e, 1, []⟩ := by
  unfold retryAux
  rw [h]

/-- Unfolding: a failed invocation with retries left sleeps for
`waitFor e d a` and continues with the next attempt. -/
theorem retryAux_eq_error_succ (d : ℚ)
    (adapter : ℕ → Except LLMErr LLMResponse) (a rem : ℕ) (e : LLMErr)
    (h : adapter a = .error e) :
    retryAux d adapter a (rem + 1) =
      ⟨(retryAux d adapter (a + 1) rem).result,
        (retryAux d adapter (a + 1) rem).invocations + 1,
        waitFor e d a :: (retryAux d adapter (a + 1) rem).waits⟩ := by
  conv_lhs => rw [retryAux]
  rw [h]

/-- For an adapter that fails on every invocation, the retry loop from
attempt `a` with `r` retries remaining makes `r + 1` invocations and
re-raises the error of the final attempt `a + r`. -/
theorem retryAux_error_of_all (d : ℚ)
    (adapter : ℕ → Except LLMErr LLMResponse) (e : ℕ → LLMErr)
    (h : ∀ n, adapter n = .error (e n)) :
    ∀ (r a : ℕ),
      (retryAux d adapter a r).result = .error (e (a + r)) ∧
      (retryAux d adapter a r).invocations = r + 1 := by
  intro r
  induction r with
  | zero =>
    intro a
    rw [retryAux_eq_error_zero d adapter a (e a) (h a)]
    simp
  | succ r ih =>
    intro a
    have hrest := ih (a + 1)
    rw [retryAux_eq_error_succ d adapter a r (e a) (h a)]
    constructor
    · have hidx : a + 1 + r = a + (r + 1) := by omega
      rw [← hidx]
      exact hrest.1
    · simp only []
      rw [hrest.2]

/-- If the attempt-`a` invocation fails and retries remain, the first
recorded sleep is the one computed by `waitFor` for that error. -/
theorem retryAux_head_wait (d : ℚ)
    (adapter : ℕ → Except LLMErr LLMResponse) (a rem : ℕ) (e : LLMErr)
    (h : adapter a = .error e) :
    (retryAux d adapter a (rem + 1)).waits.head? = some (waitFor e d a) := by
  rw [retryAux_eq_error_succ d adapter a rem e h]
  rfl

/-- Converting OpenAI vendor choices preserves the number of choices. -/
theorem convertChoices_length (cs : List OpenAIVendorChoice) :
    ∀ ls, convertChoices cs = some ls → ls.length = cs.length := by
  induction cs with
  | nil =>
    intro ls hls
    simp [convertChoices] at hls
    simp [← hls]
  | cons c cs ih =>
    intro ls hls
    simp only [convertChoices] at hls
    cases hc : convertOpenAIChoice c with
    | none => rw [hc] at hls; exact absurd hls (by simp)
    | some l =>
      rw [hc] at hls
      cases hcs : convertChoices cs with
      | none => rw [hcs] at hls; exact absurd hls (by simp)
      | some ls2 =>
        rw [hcs] at hls
        simp at hls
        rw [← hls]
        simp [ih ls2 hcs]

/-- The accumulator form of the Anthropic message conversion: the system
preamble is the source-style merge of the system contents, and the
converted list extends the accumulator with the kept user/assistant
messages. -/
theorem convertMessagesAux_eq (msgs : List LLMMessage) :
    ∀ (sys : String) (acc : List AnthropicMessage),
      convertMessagesAux msgs sys acc =
        (mergeSys sys (systemContents msgs), acc ++ keptMessages msgs) := by
  induction msgs with
  | nil => intro sys acc; simp [convertMessagesAux, mergeSys, systemContents, keptMessages]
  | cons m rest ih =>
    intro sys acc
    cases hrole : m.role with
    | system =>
      simp [convertMessagesAux, hrole, systemContents, keptMessages, ih, mergeSys]
    | user =>
      simp [convertMessagesAux, hrole, systemContents, keptMessages, ih, mergeSys, hrole]
    | assistant =>
      simp [convertMessagesAux, hrole, systemContents, keptMessages, ih, mergeSys, hrole]
    | function =>
      simp [convertMessagesAux, hrole, systemContents, keptMessages, ih, mergeSys]

/-- A string with a non-empty prefix is non-empty. -/
theorem append_ne_empty_left (a b : String) (ha : a ≠ "") : a ++ b ≠ "" := by
  intro hab
  apply ha
  have hlen : (a ++ b).length = 0 := by rw [hab]; rfl
  rw [String.length_append] at hlen
  have : a.length = 0 := by omega
  cases a with
  | mk data =>
    cases data with
    | nil => rfl
    | cons c cs => simp [String.length] at this

/-- Unfolding lemma for `mergeSys` on a cons cell. -/
theorem mergeSys_cons (a c : String) (cs : List String) :
    mergeSys a (c :: cs) =
      mergeSys (if a ≠ "" then a ++ "\n\n" ++ c else c) cs := rfl

/-- Unfolding lemma for `blankLineJoin` on two or more entries. -/
theorem blankLineJoin_cons2 (c d : String) (ds : List String) :
    blankLineJoin (c :: d :: ds) = c ++ "\n\n" ++ blankLineJoin (d :: ds) :=
  rfl

/-- Source-style merging from a non-empty accumulator is blank-line
joining with the accumulator in front. -/
theorem mergeSys_of_ne (cs : List String) :
    ∀ a : String, a ≠ "" → mergeSys a cs = blankLineJoin (a :: cs) := by
  induction cs with
  | nil => intro a ha; rfl
  | cons c cs ih =>
    intro a ha
    have hne : a ++ "\n\n" ++ c ≠ "" :=
      append_ne_empty_left _ _ (append_ne_empty_left _ _ ha)
    rw [mergeSys_cons, if_pos ha, ih _ hne]
    cases cs with
    | nil => rw [blankLineJoin_cons2]; rfl
    | cons d ds =>
      rw [blankLineJoin_cons2, blankLineJoin_cons2, blankLineJoin_cons2]
      simp [String.append_assoc]

/-- Source-style merging from the empty accumulator drops leading empty
contents and blank-line-joins the rest. -/
theorem mergeSys_empty (cs : List String) :
    mergeSys "" cs =
      blankLineJoin (cs.dropWhile (fun c => decide (c = ""))) := by
  induction cs with
  | nil => rfl
  | cons c cs ih =>
    by_cases hc : c = ""
    · subst hc
      rw [mergeSys_cons, if_neg (by simp), List.dropWhile_cons]
      simpa using ih
    · rw [mergeSys_cons, if_neg (by simp [hc]), List.dropWhile_cons]
      have hfalse : decide (c = "") = false := decide_eq_false hc
      rw [hfalse]
      exact mergeSys_of_ne cs c hc

/-! ## Claim theorems -/

/-- C1: the claim states that adapter-raised validation and
authentication errors propagate on the first occurrence with no further
adapter invocation.  The code contradicts it: the handler
`except (LLMConnectionError, LLMError)` catches every `LLMError`
subclass, so with `max_retries = 1` an adapter that always raises
`LLMAuthenticationError` (resp. `LLMValidationError`) is invoked twice,
not once, before the error is re-raised. -/
theorem auth_and_validation_errors_are_retried :
    (makeRequestWithRetry ⟨.anthropic, "key", 60, 1, 1, 30, "m"⟩
      (fun _ => .error ⟨.authentication, "auth failed", none, none⟩)).invocations = 2 ∧
    (makeRequestWithRetry ⟨.anthropic, "key", 60, 1, 1, 30, "m"⟩
      (fun _ => .error ⟨.validation, "bad request", none, none⟩)).invocations = 2 ∧
    (makeRequestWithRetry ⟨.anthropic, "key", 60, 1, 1, 30, "m"⟩
      (fun _ => .error ⟨.authentication, "auth failed", none, none⟩)).result =
      .error ⟨.authentication, "auth failed", none, none⟩ := by
  refine ⟨?_, ?_, ?_⟩ <;> decide

/-- C2: with `max_retries = 2` and an adapter whose every invocation
raises a connection error, `_make_request_with_retry` makes exactly 3
adapter invocations and re-raises the error instance of the last
(third) invocation unchanged — still a connection error, not a wrapper. -/
theorem retry_exhaustion_connection (cfg : LLMProviderConfig)
    (adapter : ℕ → Except LLMErr LLMResponse) (e : ℕ → LLMErr)
    (hmr : cfg.maxRetries = 2)
    (hall : ∀ n, adapter n = .error (e n))
    (hconn : ∀ n, (e n).kind = .connection) :
    (makeRequestWithRetry cfg adapter).invocations = 3 ∧
    (makeRequestWithRetry cfg adapter).result = .error (e 2) ∧
    (e 2).kind = .connection := by
  have h := retryAux_error_of_all cfg.retryDelaySeconds adapter e hall 2 0
  unfold makeRequestWithRetry
  rw [hmr]
  exact ⟨h.2, h.1, hconn 2⟩

/-- C2 witness: a concrete always-failing connection adapter with
`max_retries = 2`. -/
theorem retry_exhaustion_connection_witness :
    (makeRequestWithRetry ⟨.openai, "k", 60, 2, 1, 30, "m"⟩
      (fun _ => .error ⟨.connection, "boom", none, none⟩)).invocations = 3 ∧
    (makeRequestWithRetry ⟨.openai, "k", 60, 2, 1, 30, "m"⟩
      (fun _ => .error ⟨.connection, "boom", none, none⟩)).result =
      .error ⟨.connection, "boom", none, none⟩ ∧
    (LLMErr.mk .connection "boom" none none).kind = .connection :=
  retry_exhaustion_connection ⟨.openai, "k", 60, 2, 1, 30, "m"⟩
    (fun _ => .error ⟨.connection, "boom", none, none⟩)
    (fun _ => ⟨.connection, "boom", none, none⟩)
    rfl (fun _ => rfl) (fun _ => rfl)

/-- C3: a request with an empty message list fails in `_validate_request`
with the empty-messages `LLMValidationError` and zero adapter
invocations; a request with `max_tokens > 32000` likewise fails with an
`LLMValidationError` and zero adapter invocations. -/
theorem validation_blocks_adapter (cfg : LLMProviderConfig)
    (adapter : ℕ → Except LLMErr LLMResponse) (req : LLMRequest) :
    (req.messages = [] →
      generate cfg adapter req =
        ⟨.error ⟨.validation, "Request must contain at least one message",
          none, none⟩, 0, []⟩) ∧
    (∀ t : ℕ, req.maxTokens = some t → 32000 < t →
      (generate cfg adapter req).invocations = 0 ∧
      ∃ e : LLMErr, (generate cfg adapter req).result = .error e ∧
        e.kind = .validation) := by
  constructor
  · intro hempty
    simp [generate, validateRequest, hempty]
  · intro t ht hgt
    by_cases hempty : req.messages = []
    · simp [generate, validateRequest, hempty]
    · have hne : t ≠ 0 := by omega
      simp [generate, validateRequest, hempty, ht, hne, hgt]

/-- C3 witness: an empty-message request and an oversized `max_tokens`
request, each with zero adapter invocations. -/
theorem validation_blocks_adapter_witness :
    generate ⟨.openai, "k", 60, 3, 1, 30, "m"⟩ (fun _ => .ok sampleResponse)
        ⟨[], "gpt-4", some 1000, some (7/10), some 1, false, 0⟩ =
      ⟨.error ⟨.validation, "Request must contain at least one message",
        none, none⟩, 0, []⟩ ∧
    (generate ⟨.openai, "k", 60, 3, 1, 30, "m"⟩ (fun _ => .ok sampleResponse)
      ⟨[⟨.user, "hi", none, none⟩], "gpt-4", some 32001, some (7/10),
        some 1, false, 0⟩).invocations = 0 :=
  ⟨(validation_blocks_adapter ⟨.openai, "k", 60, 3, 1, 30, "m"⟩
      (fun _ => .ok sampleResponse)
      ⟨[], "gpt-4", some 1000, some (7/10), some 1, false, 0⟩).1 rfl,
    ((validation_blocks_adapter ⟨.openai, "k", 60, 3, 1, 30, "m"⟩
      (fun _ => .ok sampleResponse)
      ⟨[⟨.user, "hi", none, none⟩], "gpt-4", some 32001, some (7/10),
        some 1, false, 0⟩).2 32001 rfl (by omega)).1⟩

/-- C4 counterexample: the claim says the delay equals the
vendor-supplied `retry_after` whenever one was supplied.  With
`retry_after = 0` supplied, `retry_delay_seconds = 1` and `max_retries =
1`, the single recorded sleep is `1` (the exponential backoff), not the
supplied `0`. -/
theorem retry_after_zero_counterexample :
    (makeRequestWithRetry ⟨.openai, "k", 60, 1, 1, 30, "m"⟩
      (fun _ => .error ⟨.rateLimit (some 0), "rl", none, none⟩)).waits = [1] ∧
    ([1] : List ℚ) ≠ [0] := by
  constructor
  · show (retryAux 1
      (fun _ => .error ⟨.rateLimit (some 0), "rl", none, none⟩) 0 (0 + 1)).waits = [1]
    rw [retryAux_eq_error_succ 1 _ 0 0 ⟨.rateLimit (some 0), "rl", none, none⟩ rfl,
      retryAux_eq_error_zero 1 _ (0 + 1) ⟨.rateLimit (some 0), "rl", none, none⟩ rfl]
    show [waitFor ⟨.rateLimit (some 0), "rl", none, none⟩ 1 0] = [1]
    simp [waitFor, pyOr]
  · simp only [ne_eq, List.cons.injEq, and_true]
    norm_num

/-- C4 (amended): the delay for a rate-limit retry at attempt `n` is the
vendor `retry_after` when one was supplied and non-zero, and
`retry_delay_seconds * 2 ^ n` when it is absent or zero; for every other
error kind the delay is `retry_delay_seconds * 2 ^ n`; the first
recorded sleep of the loop is exactly `waitFor` of the caught error; and
the adapter that raises `RateLimitError(retry_after=0.05)` on its first
two invocations and succeeds on the third yields exactly 3 invocations,
the success response, and sleeps `[0.05, 0.05]`. -/
theorem backoff_delay_policy :
    (∀ (e : LLMErr) (ra d : ℚ) (n : ℕ), e.kind = .rateLimit (some ra) →
      ra ≠ 0 → waitFor e d n = ra) ∧
    (∀ (e : LLMErr) (d : ℚ) (n : ℕ),
      e.kind = .rateLimit none ∨ e.kind = .rateLimit (some 0) →
      waitFor e d n = d * 2 ^ n) ∧
    (∀ (e : LLMErr) (d : ℚ) (n : ℕ),
      (∀ ra : Option ℚ, e.kind ≠ .rateLimit ra) →
      waitFor e d n = d * 2 ^ n) ∧
    (∀ (d : ℚ) (adapter : ℕ → Except LLMErr LLMResponse) (a rem : ℕ)
        (e : LLMErr), adapter a = .error e →
      (retryAux d adapter a (rem + 1)).waits.head? = some (waitFor e d a)) ∧
    (makeRequestWithRetry ⟨.openai, "k", 60, 3, 1, 30, "m"⟩
        (fun n => if n < 2 then
          .error ⟨.rateLimit (some (1/20)), "rl", none, none⟩
          else .ok sampleResponse) =
      ⟨.ok sampleResponse, 3, [1/20, 1/20]⟩) := by
  refine ⟨?_, ?_, ?_, ?_, ?_⟩
  · intro e ra d n hk hra
    simp [waitFor, hk, pyOr, hra]
  · intro e d n hk
    rcases hk with hk | hk <;> simp [waitFor, hk, pyOr]
  · intro e d n hk
    unfold waitFor
    cases he : e.kind with
    | rateLimit ra => exact absurd he (hk ra)
    | connection => rfl
    | validation => rfl
    | authentication => rfl
    | generic => rfl
  · intro d adapter a rem e h
    exact retryAux_head_wait d adapter a rem e h
  · show retryAux 1
      (fun n => if n < 2 then
        .error ⟨.rateLimit (some (1/20)), "rl", none, none⟩
        else .ok sampleResponse) 0 (2 + 1) =
      ⟨.ok sampleResponse, 3, [1/20, 1/20]⟩
    rw [retryAux_eq_error_succ 1 _ 0 2
        ⟨.rateLimit (some (1/20)), "rl", none, none⟩ rfl]
    rw [retryAux_eq_error_succ 1 _ (0 + 1) 1
        ⟨.rateLimit (some (1/20)), "rl", none, none⟩ rfl]
    rw [retryAux_eq_ok 1 _ (0 + 1 + 1) 1 sampleResponse rfl]
    show (⟨Except.ok sampleResponse,
        1 + 1 + 1,
        waitFor ⟨.rateLimit (some (1/20)), "rl", none, none⟩ 1 0 ::
          waitFor ⟨.rateLimit (some (1/20)), "rl", none, none⟩ 1 (0 + 1) ::
          ([] : List ℚ)⟩ : RetryResult) =
      ⟨.ok sampleResponse, 3, [1/20, 1/20]⟩
    have hw0 : waitFor ⟨.rateLimit (some (1/20)), "rl", none, none⟩ 1 0 =
        1/20 := by
      simp [waitFor, pyOr]
    have hw1 : waitFor ⟨.rateLimit (some (1/20)), "rl", none, none⟩ 1 (0 + 1) =
        1/20 := by
      simp [waitFor, pyOr]
    rw [hw0, hw1]

/-- C4 witness: a non-zero vendor `retry_after` is used as the delay. -/
theorem backoff_delay_policy_witness :
    waitFor ⟨.rateLimit (some (1/2)), "rl", none, none⟩ 1 0 = 1/2 :=
  backoff_delay_policy.1 ⟨.rateLimit (some (1/2)), "rl", none, none⟩
    (1/2) 1 0 rfl (by norm_num)

/-- C5 counterexample: the claim says every successfully converted
vendor response contains at least one `Choice`, but the OpenAI converter
copies the vendor choice list verbatim: a vendor response with an empty
`choices` list converts successfully to a response with zero choices. -/
theorem openai_zero_choices_counterexample :
    convertOpenAIResponse
        ⟨"resp-1", "chat.completion", 0, "gpt-4", [], some ⟨1, 2, 3⟩⟩
        sampleRequest =
      some ⟨"resp-1", "chat.completion", 0, "gpt-4", .openai, [],
        some ⟨1, 2, 3⟩, 0, none⟩ ∧
    (⟨"resp-1", "chat.completion", 0, "gpt-4", .openai, [],
        some ⟨1, 2, 3⟩, 0, none⟩ : LLMResponse).choices.length = 0 := by
  constructor <;> rfl

/-- C5 (amended): the Anthropic converter always produces exactly one
`Choice` and zero-fills absent token-usage fields; the OpenAI converter
produces one `Choice` per vendor choice — zero when the vendor returned
none — and copies usage fields directly (only an absent usage object
maps to an absent usage). -/
theorem response_conversion_choices :
    (∀ (resp : AnthropicResponse) (req : LLMRequest) (freshId : String),
      (convertAnthropicResponse resp req freshId).choices.length = 1) ∧
    (∀ (resp : AnthropicResponse) (req : LLMRequest) (freshId : String),
      resp.usage = some ⟨none, none⟩ →
      (convertAnthropicResponse resp req freshId).usage = some ⟨0, 0, 0⟩) ∧
    (∀ (resp : OpenAIVendorResponse) (req : LLMRequest) (out : LLMResponse),
      convertOpenAIResponse resp req = some out →
      out.choices.length = resp.choices.length) := by
  refine ⟨?_, ?_, ?_⟩
  · intro resp req freshId
    rfl
  · intro resp req freshId husage
    simp [convertAnthropicResponse, husage]
  · intro resp req out hout
    unfold convertOpenAIResponse at hout
    cases hc : convertChoices resp.choices with
    | none => rw [hc] at hout; exact absurd hout (by simp)
    | some cs =>
      rw [hc] at hout
      simp at hout
      rw [← hout]
      exact convertChoices_length resp.choices cs hc

/-- C5 witness: concrete instances of the amended conversion facts. -/
theorem response_conversion_choices_witness :
    (convertAnthropicResponse ⟨[], none, some ⟨none, none⟩, none, none⟩
      sampleRequest "u").usage = some ⟨0, 0, 0⟩ ∧
    (⟨"r", "chat.completion", 0, "m", .openai,
        [⟨0, ⟨.assistant, "hi", none, none⟩, none⟩], none, 0, none⟩ :
      LLMResponse).choices.length =
      [(⟨0, ⟨"assistant", some "hi", none⟩, none⟩ : OpenAIVendorChoice)].length :=
  ⟨response_conversion_choices.2.1 ⟨[], none, some ⟨none, none⟩, none, none⟩
      sampleRequest "u" rfl,
    response_conversion_choices.2.2
      ⟨"r", "chat.completion", 0, "m",
        [⟨0, ⟨"assistant", some "hi", none⟩, none⟩], none⟩
      sampleRequest
      ⟨"r", "chat.completion", 0, "m", .openai,
        [⟨0, ⟨.assistant, "hi", none, none⟩, none⟩], none, 0, none⟩
      rfl⟩

/-- C6: the rate-limit gate guarantees that, on the idealised clock, the
dispatch timestamp of a `generate` call is at least the minimum interval
`60 / max_requests_per_minute` after the stored timestamp of the
previous dispatched request; with `max_requests_per_minute = 60` two
consecutive calls are therefore spaced at least 1 second apart. -/
theorem rate_limit_gate_spacing :
    (∀ (m : ℕ) (last now : ℚ), 0 < last → last ≤ now →
      60 / (m : ℚ) ≤ (checkRateLimits m last now).2 - last) ∧
    (∀ (last now : ℚ), 0 < last → last ≤ now →
      1 ≤ (checkRateLimits 60 last now).2 - last) := by
  have hgen : ∀ (m : ℕ) (last now : ℚ), 0 < last → last ≤ now →
      60 / (m : ℚ) ≤ (checkRateLimits m last now).2 - last := by
    intro m last now hl hln
    unfold checkRateLimits
    rw [if_pos hl]
    by_cases h : now - last < 60 / (m : ℚ)
    · rw [if_pos h]
      have heq : now + (60 / (m : ℚ) - (now - last)) - last = 60 / (m : ℚ) := by
        ring
      simp only []
      rw [heq]
    · rw [if_neg h]
      have := not_lt.mp h
      simp only []
      linarith
  refine ⟨hgen, ?_⟩
  intro last now hl hln
  have h := hgen 60 last now hl hln
  have hcast : (60 : ℚ) / ((60 : ℕ) : ℚ) = 1 := by norm_num
  rw [hcast] at h
  exact h

/-- C6 witness: a second call 0.5 s after a dispatch at t = 1 is pushed
to t = 2. -/
theorem rate_limit_gate_spacing_witness :
    1 ≤ (checkRateLimits 60 1 (3/2)).2 - 1 :=
  rate_limit_gate_spacing.2 1 (3/2) (by norm_num) (by norm_num)

/-- C7 counterexample: with a first system message of empty content, the
code's preamble merge drops it without a separator, while the claimed
blank-line concatenation of all system contents in order would produce a
leading separator. -/
theorem anthropic_system_merge_counterexample :
    (convertMessagesToAnthropic
      [⟨.system, "", none, none⟩, ⟨.system, "Be brief.", none, none⟩]).1 =
      "Be brief." ∧
    blankLineJoin (systemContents
      [⟨.system, "", none, none⟩, ⟨.system, "Be brief.", none, none⟩]) =
      "\n\nBe brief." ∧
    ("Be brief." : String) ≠ "\n\nBe brief." := by
  refine ⟨rfl, rfl, by decide⟩

/-- If no content in the list is empty, nothing is dropped from its
front. -/
theorem dropWhile_empty_eq_self (l : List String)
    (h : ∀ c ∈ l, c ≠ "") :
    l.dropWhile (fun c => decide (c = "")) = l := by
  cases l with
  | nil => rfl
  | cons c cs =>
    rw [List.dropWhile_cons, decide_eq_false (h c (by simp))]
    simp

/-- C7 (amended): the Anthropic message conversion builds the system
preamble by dropping leading empty system contents and joining the rest
with blank-line separators in order — which is exactly the claimed
blank-line concatenation whenever every system message has non-empty
content; user and assistant messages are kept with their content in
their original relative order, and function messages are dropped. -/
theorem anthropic_message_conversion (msgs : List LLMMessage) :
    (convertMessagesToAnthropic msgs).1 =
      blankLineJoin
        ((systemContents msgs).dropWhile (fun c => decide (c = ""))) ∧
    (convertMessagesToAnthropic msgs).2 = keptMessages msgs ∧
    ((∀ c ∈ systemContents msgs, c ≠ "") →
      (convertMessagesToAnthropic msgs).1 =
        blankLineJoin (systemContents msgs)) := by
  have h := convertMessagesAux_eq msgs "" []
  unfold convertMessagesToAnthropic
  rw [h]
  refine ⟨mergeSys_empty (systemContents msgs), by simp, ?_⟩
  intro hall
  have hdrop := dropWhile_empty_eq_self (systemContents msgs) hall
  calc mergeSys "" (systemContents msgs)
      = blankLineJoin
          ((systemContents msgs).dropWhile (fun c => decide (c = ""))) :=
        mergeSys_empty (systemContents msgs)
    _ = blankLineJoin (systemContents msgs) := by rw [hdrop]

/-- C7 witness: a concrete conversation with two non-empty system
messages, a user, an assistant and a function message. -/
theorem anthropic_message_conversion_witness :
    (convertMessagesToAnthropic
      [⟨.system, "A", none, none⟩, ⟨.user, "u", none, none⟩,
        ⟨.system, "B", none, none⟩, ⟨.function, "f", none, none⟩,
        ⟨.assistant, "a", none, none⟩]).1 =
      blankLineJoin (systemContents
        [⟨.system, "A", none, none⟩, ⟨.user, "u", none, none⟩,
          ⟨.system, "B", none, none⟩, ⟨.function, "f", none, none⟩,
          ⟨.assistant, "a", none, none⟩]) :=
  (anthropic_message_conversion
    [⟨.system, "A", none, none⟩, ⟨.user, "u", none, none⟩,
      ⟨.system, "B", none, none⟩, ⟨.function, "f", none, none⟩,
      ⟨.assistant, "a", none, none⟩]).2.2 (by decide)

/-! ## Helper lemmas for the extraction heuristics -/

/-- The first pattern (`confidence`) winning determines the score. -/
theorem extractConfidenceScore_first (s : String) (g : NumGroup)
    (h : searchKeyNumber "confidence".data (pyToLower s) = some g) :
    extractConfidenceScore s = some (normaliseScore g.toRat) := by
  simp only [extractConfidenceScore, h]

/-- The second pattern (`score`) is used only when the first fails. -/
theorem extractConfidenceScore_second (s : String) (g : NumGroup)
    (h1 : searchKeyNumber "confidence".data (pyToLower s) = none)
    (h2 : searchKeyNumber "score".data (pyToLower s) = some g) :
    extractConfidenceScore s = some (normaliseScore g.toRat) := by
  simp only [extractConfidenceScore, h1, h2]

/-- The third pattern (`/10`, `out of 10`) is used only when the first
two fail. -/
theorem extractConfidenceScore_third (s : String) (g : NumGroup)
    (h1 : searchKeyNumber "confidence".data (pyToLower s) = none)
    (h2 : searchKeyNumber "score".data (pyToLower s) = none)
    (h3 : searchOutOfTen (pyToLower s) = some g) :
    extractConfidenceScore s = some (normaliseScore g.toRat) := by
  simp only [extractConfidenceScore, h1, h2, h3]

/-- With no pattern matching, the score is absent. -/
theorem extractConfidenceScore_none (s : String)
    (h1 : searchKeyNumber "confidence".data (pyToLower s) = none)
    (h2 : searchKeyNumber "score".data (pyToLower s) = none)
    (h3 : searchOutOfTen (pyToLower s) = none) :
    extractConfidenceScore s = none := by
  simp only [extractConfidenceScore, h1, h2, h3]

/-- The normalised score is clamped to the unit interval. -/
theorem normaliseScore_mem_unit (v : ℚ) :
    0 ≤ normaliseScore v ∧ normaliseScore v ≤ 1 := by
  unfold normaliseScore
  exact ⟨le_min (le_max_right _ 0) zero_le_one, min_le_right _ _⟩

/-- C8: on "Confidence: 8/10, this is excellent" the confidence score is
the clamped 0.8 and the assessment is "Excellent"; text with no numeric
pattern yields an absent score and assessment "Unknown"; in general the
first matching pattern wins, a matched value above 1 is divided by 10,
every returned score is clamped to [0, 1], and the assessment follows
keyword priority excellent, good, fair, poor with default "Unknown". -/
theorem confidence_and_assessment_extraction :
    extractConfidenceScore "Confidence: 8/10, this is excellent" =
      some (4/5) ∧
    extractOverallAssessment "Confidence: 8/10, this is excellent" =
      "Excellent" ∧
    extractConfidenceScore "No numeric pattern here." = none ∧
    extractOverallAssessment "No numeric pattern here." = "Unknown" ∧
    (∀ (s : String) (g : NumGroup),
      searchKeyNumber "confidence".data (pyToLower s) = some g →
      extractConfidenceScore s = some (normaliseScore g.toRat)) ∧
    (∀ (s : String) (g : NumGroup),
      searchKeyNumber "confidence".data (pyToLower s) = none →
      searchKeyNumber "score".data (pyToLower s) = some g →
      extractConfidenceScore s = some (normaliseScore g.toRat)) ∧
    (∀ s : String,
      searchKeyNumber "confidence".data (pyToLower s) = none →
      searchKeyNumber "score".data (pyToLower s) = none →
      searchOutOfTen (pyToLower s) = none →
      extractConfidenceScore s = none) ∧
    (∀ v : ℚ, 1 < v → normaliseScore v = min (max (v / 10) 0) 1) ∧
    (∀ v : ℚ, ¬ 1 < v → normaliseScore v = min (max v 0) 1) ∧
    (∀ (s : String) (r : ℚ), extractConfidenceScore s = some r →
      0 ≤ r ∧ r ≤ 1) ∧
    (∀ s : String, hasSub "excellent".data (pyToLower s) = true →
      extractOverallAssessment s = "Excellent") ∧
    (∀ s : String, hasSub "excellent".data (pyToLower s) = false →
      hasSub "good".data (pyToLower s) = true →
      extractOverallAssessment s = "Good") ∧
    (∀ s : String, hasSub "excellent".data (pyToLower s) = false →
      hasSub "good".data (pyToLower s) = false →
      hasSub "fair".data (pyToLower s) = true →
      extractOverallAssessment s = "Fair") ∧
    (∀ s : String, hasSub "excellent".data (pyToLower s) = false →
      hasSub "good".data (pyToLower s) = false →
      hasSub "fair".data (pyToLower s) = false →
      hasSub "poor".data (pyToLower s) = true →
      extractOverallAssessment s = "Poor") ∧
    (∀ s : String, hasSub "excellent".data (pyToLower s) = false →
      hasSub "good".data (pyToLower s) = false →
      hasSub "fair".data (pyToLower s) = false →
      hasSub "poor".data (pyToLower s) = false →
      extractOverallAssessment s = "Unknown") := by
  have hconf : extractConfidenceScore
      "Confidence: 8/10, this is excellent" = some (4/5) := by
    have hs : searchKeyNumber "confidence".data
        (pyToLower "Confidence: 8/10, this is excellent") =
        some ⟨['8'], []⟩ := by decide
    rw [extractConfidenceScore_first _ _ hs]
    have hg : (⟨['8'], []⟩ : NumGroup).toRat = 8 := by
      unfold NumGroup.toRat
      norm_num [show digitsToNat ['8'] = 8 from by decide,
        show digitsToNat [] = 0 from rfl]
    rw [hg]
    have hn : normaliseScore 8 = 4/5 := by
      unfold normaliseScore
      rw [if_pos (by norm_num : (8:ℚ) > 1)]
      norm_num [min_def, max_def]
    rw [hn]
  refine ⟨hconf, rfl, rfl, rfl, extractConfidenceScore_first,
    extractConfidenceScore_second, extractConfidenceScore_none,
    ?_, ?_, ?_, ?_, ?_, ?_, ?_, ?_⟩
  · intro v hv
    unfold normaliseScore
    rw [if_pos hv]
  · intro v hv
    unfold normaliseScore
    rw [if_neg hv]
  · intro s r h
    cases h1 : searchKeyNumber "confidence".data (pyToLower s) with
    | some g =>
      rw [extractConfidenceScore_first s g h1] at h
      obtain rfl : normaliseScore g.toRat = r := by
        exact Option.some.inj h
      exact normaliseScore_mem_unit _
    | none =>
      cases h2 : searchKeyNumber "score".data (pyToLower s) with
      | some g =>
        rw [extractConfidenceScore_second s g h1 h2] at h
        obtain rfl : normaliseScore g.toRat = r := Option.some.inj h
        exact normaliseScore_mem_unit _
      | none =>
        cases h3 : searchOutOfTen (pyToLower s) with
        | some g =>
          rw [extractConfidenceScore_third s g h1 h2 h3] at h
          obtain rfl : normaliseScore g.toRat = r := Option.some.inj h
          exact normaliseScore_mem_unit _
        | none =>
          rw [extractConfidenceScore_none s h1 h2 h3] at h
          exact absurd h (by simp)
  · intro s h
    simp only [extractOverallAssessment, h]
    rfl
  · intro s h1 h2
    simp only [extractOverallAssessment, h1, h2]
    rfl
  · intro s h1 h2 h3
    simp only [extractOverallAssessment, h1, h2, h3]
    rfl
  · intro s h1 h2 h3 h4
    simp only [extractOverallAssessment, h1, h2, h3, h4]
    rfl
  · intro s h1 h2 h3 h4
    simp only [extractOverallAssessment, h1, h2, h3, h4]
    rfl

/-- C8 witness: the priority rule applied to a concrete "good" text. -/
theorem confidence_and_assessment_extraction_witness :
    extractOverallAssessment "this is a good answer" = "Good" :=
  confidence_and_assessment_extraction.2.2.2.2.2.2.2.2.2.2.2.1
    "this is a good answer" (by decide) (by decide)

/-- C9: the aggregate health check reports an entry for every registered
provider: a provider whose check raises contributes an "unhealthy" entry
carrying the error text, a healthy provider contributes its own report,
and the per-runtime check itself converts an initialisation failure into
an "unhealthy" report instead of propagating. -/
theorem health_check_isolation :
    (∀ ps : List (String × Except String HealthReport),
      (managerHealthCheck ps).map Prod.fst = ps.map Prod.fst) ∧
    (∀ (ps : List (String × Except String HealthReport)) (p e : String),
      (p, Except.error e) ∈ ps →
      (p, (⟨p, "unhealthy", none, some e⟩ : HealthReport)) ∈
        managerHealthCheck ps) ∧
    (∀ (ps : List (String × Except String HealthReport)) (p : String)
        (h : HealthReport), (p, Except.ok h) ∈ ps →
      (p, h) ∈ managerHealthCheck ps) ∧
    (∀ (name : String) (models : List String) (e : String),
      baseHealthCheck name models (.error e) =
        ⟨name, "unhealthy", none, some e⟩) ∧
    (∀ (name : String) (models : List String),
      baseHealthCheck name models (.ok ()) =
        ⟨name, "healthy", some models, none⟩) := by
  refine ⟨?_, ?_, ?_, fun _ _ _ => rfl, fun _ _ => rfl⟩
  · intro ps
    unfold managerHealthCheck
    rw [List.map_map]
    apply List.map_congr_left
    intro p hp
    obtain ⟨p1, p2⟩ := p
    cases p2 <;> rfl
  · intro ps p e hm
    exact List.mem_map_of_mem _ hm
  · intro ps p h hm
    exact List.mem_map_of_mem _ hm

/-- C9 witness: two registered providers, one failing; both appear in
the aggregate, the failing one as unhealthy with the error text. -/
theorem health_check_isolation_witness :
    ("anthropic", (⟨"anthropic", "unhealthy", none, some "boom"⟩ :
        HealthReport)) ∈
      managerHealthCheck
        [("openai", .ok ⟨"OpenAI", "healthy", some ["gpt-4"], none⟩),
          ("anthropic", .error "boom")] ∧
    ("openai", (⟨"OpenAI", "healthy", some ["gpt-4"], none⟩ :
        HealthReport)) ∈
      managerHealthCheck
        [("openai", .ok ⟨"OpenAI", "healthy", some ["gpt-4"], none⟩),
          ("anthropic", .error "boom")] :=
  ⟨health_check_isolation.2.1
      [("openai", .ok ⟨"OpenAI", "healthy", some ["gpt-4"], none⟩),
        ("anthropic", .error "boom")] "anthropic" "boom" (by simp),
    health_check_isolation.2.2.1
      [("openai", .ok ⟨"OpenAI", "healthy", some ["gpt-4"], none⟩),
        ("anthropic", .error "boom")] "openai"
      ⟨"OpenAI", "healthy", some ["gpt-4"], none⟩ (by simp)⟩

/-- C10: a vendor-supplied `retry_after` equal to 0 is falsy for the
Python `or`, so the retry loop falls back to the exponential backoff
delay `retry_delay_seconds * 2 ^ attempt`; with the configured lower
bound `retry_delay_seconds ≥ 0.1` this delay is never 0. -/
theorem zero_retry_after_uses_backoff :
    (∀ (e : LLMErr) (d : ℚ) (n : ℕ), e.kind = .rateLimit (some 0) →
      waitFor e d n = d * 2 ^ n) ∧
    (∀ (d : ℚ) (adapter : ℕ → Except LLMErr LLMResponse) (a rem : ℕ)
        (e : LLMErr), adapter a = .error e →
      e.kind = .rateLimit (some 0) →
      (retryAux d adapter a (rem + 1)).waits.head? = some (d * 2 ^ a)) ∧
    (∀ (e : LLMErr) (d : ℚ) (n : ℕ), e.kind = .rateLimit (some 0) →
      1/10 ≤ d → waitFor e d n ≠ 0) := by
  have hbase : ∀ (e : LLMErr) (d : ℚ) (n : ℕ),
      e.kind = .rateLimit (some 0) → waitFor e d n = d * 2 ^ n := by
    intro e d n hk
    simp [waitFor, hk, pyOr]
  refine ⟨hbase, ?_, ?_⟩
  · intro d adapter a rem e h hk
    rw [retryAux_head_wait d adapter a rem e h, hbase e d a hk]
  · intro e d n hk hd
    rw [hbase e d n hk]
    have h2 : (0:ℚ) < 2 ^ n := by positivity
    have hd0 : (0:ℚ) < d := by linarith
    exact (mul_pos hd0 h2).ne'

/-- C10 witness: retry_after = 0 at attempt 3 with delay 1 yields the
exponential backoff value. -/
theorem zero_retry_after_uses_backoff_witness :
    waitFor ⟨.rateLimit (some 0), "rl", none, none⟩ 1 3 = 1 * 2 ^ 3 ∧
    waitFor ⟨.rateLimit (some 0), "rl", none, none⟩ 1 3 ≠ 0 :=
  ⟨zero_retry_after_uses_backoff.1 ⟨.rateLimit (some 0), "rl", none, none⟩
      1 3 rfl,
    zero_retry_after_uses_backoff.2.2
      ⟨.rateLimit (some 0), "rl", none, none⟩ 1 3 rfl (by norm_num)⟩

end LLMCrosscheck
